import Mathlib

/-
Formal model of the Prague waste-assistant bot, shallow-embedded from
src/python/app/main.py and src/python/app/upload.py.

Conventions of the embedding:
* Python floats are modelled by the real numbers.
* Network calls are modelled by an explicit oracle argument
  (net : Query -> NetResult); a NetResult.err value stands for a
  requests.RequestException (ProviderUnavailable in the spec taxonomy).
* Outbound Telegram messages are modelled by the structured Reply type;
  each constructor stands for one of the literal message strings built in
  the source (the display-only emoji and Markdown text is not re-encoded).
* The per-user context.user_data dict is modelled by the UserData
  structure with its two conversation-relevant keys.
-/

/-! ## GeoMath: calculate_distance (main.py lines 44-65) -/

/-- Degree-to-radian conversion, the math.radians of the source. -/
noncomputable def radians (x : ℝ) : ℝ := x * Real.pi / 180

/-- Two-argument arctangent, the math.atan2 of the source, in its standard
piecewise definition. -/
noncomputable def atan2 (y x : ℝ) : ℝ :=
  if 0 < x then Real.arctan (y / x)
  else if x < 0 then
    (if 0 ≤ y then Real.arctan (y / x) + Real.pi else Real.arctan (y / x) - Real.pi)
  else
    (if 0 < y then Real.pi / 2 else if y < 0 then -(Real.pi / 2) else 0)

/-- Haversine distance in meters between two latitude/longitude pairs,
Earth radius 6371000 m, following main.py lines 44-65.  The Python function
additionally returns a Google-Maps directions URL built from the four
numbers; that second component is display-only text and carries no numeric
content, so it is omitted here. -/
noncomputable def calculate_distance (lat1 lon1 lat2 lon2 : ℝ) : ℝ :=
  let R : ℝ := 6371000
  let lat1_rad := radians lat1
  let lat2_rad := radians lat2
  let delta_lat := radians (lat2 - lat1)
  let delta_lon := radians (lon2 - lon1)
  let a := Real.sin (delta_lat / 2) ^ 2 +
    Real.cos lat1_rad * Real.cos lat2_rad * Real.sin (delta_lon / 2) ^ 2
  let c := 2 * atan2 (Real.sqrt a) (Real.sqrt (1 - a))
  R * c

theorem calculate_distance_eq (lat1 lon1 lat2 lon2 : ℝ) :
    calculate_distance lat1 lon1 lat2 lon2 =
      6371000 * (2 * atan2
        (Real.sqrt (Real.sin (radians (lat2 - lat1) / 2) ^ 2 +
          Real.cos (radians lat1) * Real.cos (radians lat2) *
            Real.sin (radians (lon2 - lon1) / 2) ^ 2))
        (Real.sqrt (1 - (Real.sin (radians (lat2 - lat1) / 2) ^ 2 +
          Real.cos (radians lat1) * Real.cos (radians lat2) *
            Real.sin (radians (lon2 - lon1) / 2) ^ 2)))) := rfl

theorem atan2_zero_one : atan2 0 1 = 0 := by
  unfold atan2
  rw [if_pos (by norm_num : (0 : ℝ) < 1)]
  simp [Real.arctan_zero]

theorem calculate_distance_symm (lat1 lon1 lat2 lon2 : ℝ) :
    calculate_distance lat1 lon1 lat2 lon2 = calculate_distance lat2 lon2 lat1 lon1 := by
  have hsin : ∀ a b : ℝ, Real.sin (radians (a - b) / 2) ^ 2
      = Real.sin (radians (b - a) / 2) ^ 2 := by
    intro a b
    have h : radians (a - b) / 2 = -(radians (b - a) / 2) := by
      unfold radians; ring
    rw [h, Real.sin_neg, neg_sq]
  have ha : Real.sin (radians (lat2 - lat1) / 2) ^ 2 +
      Real.cos (radians lat1) * Real.cos (radians lat2) *
        Real.sin (radians (lon2 - lon1) / 2) ^ 2
      = Real.sin (radians (lat1 - lat2) / 2) ^ 2 +
      Real.cos (radians lat2) * Real.cos (radians lat1) *
        Real.sin (radians (lon1 - lon2) / 2) ^ 2 := by
    rw [hsin lat2 lat1, hsin lon2 lon1]; ring
  rw [calculate_distance_eq, calculate_distance_eq, ha]

theorem calculate_distance_self (lat lon : ℝ) :
    calculate_distance lat lon lat lon = 0 := by
  rw [calculate_distance_eq]
  have h0 : radians (lat - lat) = 0 := by
    unfold radians; ring
  rw [h0]
  have h1 : radians (lon - lon) = 0 := by
    unfold radians; ring
  rw [h1]
  simp [Real.sin_zero, Real.sqrt_one, atan2_zero_one]

/-- C6 (amended): the haversine distance of the source is symmetric in its two
coordinate pairs, and is exactly zero on every pair of equal coordinates.  The
converse direction of the zero condition claimed in the spec is false (see the
counterexample at the north pole), so it is not part of this statement. -/
theorem calculate_distance_symm_and_self :
    (∀ lat1 lon1 lat2 lon2 : ℝ,
      calculate_distance lat1 lon1 lat2 lon2 = calculate_distance lat2 lon2 lat1 lon1) ∧
    (∀ lat lon : ℝ, calculate_distance lat lon lat lon = 0) :=
  ⟨calculate_distance_symm, calculate_distance_self⟩

/-- C6 counterexample: the two distinct coordinates (90, 0) and (90, 10) at the
north pole have haversine distance exactly 0, refuting the only-if direction of
the spec sentence that the distance is zero iff the coordinates are equal. -/
theorem calculate_distance_zero_at_pole :
    calculate_distance 90 0 90 10 = 0 ∧
    ¬ (((90 : ℝ), (0 : ℝ)) = ((90 : ℝ), (10 : ℝ))) := by
  constructor
  · rw [calculate_distance_eq]
    have h0 : radians ((90 : ℝ) - 90) = 0 := by
      unfold radians; ring
    have h90 : radians (90 : ℝ) = Real.pi / 2 := by
      unfold radians; ring
    rw [h0, h90]
    simp [Real.cos_pi_div_two, Real.sin_zero, Real.sqrt_one, atan2_zero_one]
  · intro h
    have h2 : (0 : ℝ) = 10 := congrArg Prod.snd h
    norm_num at h2

/-! ## CategoryMapper: map_to_bin (main.py lines 134-157) -/

/-- Substring containment on character lists: does sub occur (contiguously)
anywhere in s?  This is the Python expression x in label for strings. -/
def containsSub (sub : List Char) : List Char → Bool
  | [] => sub.isEmpty
  | c :: t => sub.isPrefixOf (c :: t) || containsSub sub t

/-- Python substring test x in s, lifted to Lean strings. -/
def strIn (x s : String) : Bool := containsSub x.data s.data

/-- Python str.lower, modelled character-wise (the labels involved are plain
ASCII, where Python lower and Char.toLower agree). -/
def pyLower (s : String) : String := String.mk (s.data.map Char.toLower)

/-- Category-mapper of the source: lower-case the label, then test the keyword
lists in the fixed source order with first-match-wins, falling back to
Mixed waste / black.  Faithful transcription of main.py lines 134-157. -/
def map_to_bin (label : String) : String × String :=
  let l := pyLower label
  if (["plastic", "bottle", "pet", "packaging", "bag"].any fun x => strIn x l) then
    ("Plastics", "yellow")
  else if (["paper", "cardboard", "newspaper", "magazine", "envelope"].any fun x => strIn x l) then
    ("Paper", "blue")
  else if (["glass", "jar", "bottle"].any fun x => strIn x l) then
    ("Glass", "green")
  else if (["can", "tin", "metal", "aluminum", "foil"].any fun x => strIn x l) then
    ("Metals", "gray")
  else if (["fruit", "vegetable", "food", "organic", "peel", "compost"].any fun x => strIn x l) then
    ("Biodegradable waste", "brown")
  else if (["carton", "tetrapak", "juice box", "milk carton"].any fun x => strIn x l) then
    ("Beverage cartons", "orange")
  else if (["phone", "battery", "cable", "electronic", "charger"].any fun x => strIn x l) then
    ("Electronic waste", "drop-off")
  else if (["chemical", "paint", "medicine", "hazardous", "toxic"].any fun x => strIn x l) then
    ("Hazardous waste", "drop-off")
  else if (["clothes", "textile", "fabric", "shoes"].any fun x => strIn x l) then
    ("Textile", "drop-off")
  else ("Mixed waste", "black")

/-- Closed list of the ten category/bin-color pairs that the source can ever
return, in the order its rules are tested. -/
def binOutcomes : List (String × String) :=
  [("Plastics", "yellow"), ("Paper", "blue"), ("Glass", "green"), ("Metals", "gray"),
   ("Biodegradable waste", "brown"), ("Beverage cartons", "orange"),
   ("Electronic waste", "drop-off"), ("Hazardous waste", "drop-off"),
   ("Textile", "drop-off"), ("Mixed waste", "black")]

/-- C3: map_to_bin is total, every input yields one of the ten category/color
pairs of the ordered rule table (Plastics tested first, Mixed waste the final
fallback), and on the three spec examples it returns Plastics/yellow (first-match
precedence of the plastics rule over the overlapping glass keyword bottle),
Glass/green, and the Mixed waste/black fallback respectively. -/
theorem map_to_bin_total_and_examples :
    map_to_bin "plastic bottle" = ("Plastics", "yellow") ∧
    map_to_bin "used glass jar" = ("Glass", "green") ∧
    map_to_bin "xyz" = ("Mixed waste", "black") ∧
    ∀ label : String, map_to_bin label ∈ binOutcomes := by
  refine ⟨by decide, by decide, by decide, ?_⟩
  intro label
  simp only [map_to_bin]
  split_ifs <;> simp [binOutcomes]

/-- C9: every label whose lower-cased form contains the substring bottle is
classified by the first (plastics) rule, since bottle is a plastics keyword and
the plastics rule is tested before the glass rule that also lists bottle. -/
theorem map_to_bin_bottle_is_plastics (label : String)
    (h : strIn "bottle" (pyLower label) = true) :
    map_to_bin label = ("Plastics", "yellow") := by
  unfold map_to_bin
  have hany : (["plastic", "bottle", "pet", "packaging", "bag"].any
      fun x => strIn x (pyLower label)) = true := by
    simp only [List.any_eq_true]
    exact ⟨"bottle", by simp, h⟩
  simp [hany]

/-- Witness for C9: the label glass bottle, which contains both the glass and
the bottle keywords, maps to Plastics/yellow, not to Glass. -/
theorem map_to_bin_bottle_is_plastics_witness :
    strIn "bottle" (pyLower "glass bottle") = true ∧
    map_to_bin "glass bottle" = ("Plastics", "yellow") :=
  ⟨by decide, map_to_bin_bottle_is_plastics "glass bottle" (by decide)⟩

/-! ## ResponseLocalizer: translate_text (main.py lines 68-92) -/

/-- Python s.startswith(pre), modelled on the character lists. -/
def pyStartswith (s pre : String) : Bool := pre.data.isPrefixOf s.data

/-- Localizer of the source, main.py lines 68-92: if target_lang lower-cased
starts with en, return the text unchanged without touching the collaborator;
otherwise issue the LLM translation call and return whatever it produces.
The remote translation collaborator (client.chat.completions.create plus the
strip of its first choice) is an oracle argument; an Except.error result stands
for the call raising an exception.  Note the source wraps nothing in try/except:
a collaborator failure is returned (propagated) as is.  The Python default
argument target_lang="en" is immaterial here since both call shapes pass the
argument explicitly through this model. -/
def translate_text (collab : String → String → Except String String)
    (text : String) (target_lang : String) : Except String String :=
  if pyStartswith (pyLower target_lang) "en" then Except.ok text
  else collab text target_lang

/-- Modelled from the spec: the ResponseLocalizer contract of section 4.6,
identity when languageCode starts with en OR is empty, otherwise delegation to
the translation collaborator.  Written from the spec wording, to be compared
with the source function translate_text. -/
def localizeSpec (collab : String → String → Except String String)
    (text languageCode : String) : Except String String :=
  if pyStartswith (pyLower languageCode) "en" = true ∨ languageCode = "" then
    Except.ok text
  else collab text languageCode

/-- C7 counterexample: with the empty languageCode the source delegates to the
translation collaborator (Python "".startswith("en") is False), so the result
is the collaborator output, not the unchanged text, while the spec-side
contract returns the text unchanged; the claimed identity/no-call behaviour for
the empty languageCode is therefore false. -/
theorem translate_text_empty_lang_delegates :
    translate_text (fun t _ => Except.ok (t ++ "!")) "hi" "" = Except.ok "hi!" ∧
    localizeSpec (fun t _ => Except.ok (t ++ "!")) "hi" "" = Except.ok "hi" ∧
    (Except.ok "hi!" : Except String String) ≠ Except.ok "hi" := by
  refine ⟨rfl, ?_, ?_⟩
  · simp [localizeSpec]
  · intro h
    injection h with h2
    exact absurd h2 (by decide)

/-- C7 (amended): translate_text agrees with the spec-side localizer contract
for every nonempty languageCode (identity and no collaborator call exactly when
the lower-cased languageCode starts with en, delegation otherwise); the empty
languageCode, however, is delegated to the collaborator like any other non-en
code.  The two closing conjuncts exhibit both regimes concretely for every text
and collaborator. -/
theorem translate_text_matches_spec_off_empty (text lang : String)
    (collab : String → String → Except String String) (h : lang ≠ "") :
    translate_text collab text lang = localizeSpec collab text lang ∧
    translate_text collab text "en" = Except.ok text ∧
    translate_text collab text "" = collab text "" := by
  refine ⟨?_, rfl, rfl⟩
  by_cases hs : pyStartswith (pyLower lang) "en" = true
  · simp [translate_text, localizeSpec, hs]
  · simp [translate_text, localizeSpec, hs, h]

/-- Witness for C7 (amended) at the concrete languageCode cs. -/
theorem translate_text_matches_spec_off_empty_witness :
    ("cs" : String) ≠ "" ∧
    (translate_text (fun t _ => Except.ok t) "hello" "cs"
        = localizeSpec (fun t _ => Except.ok t) "hello" "cs" ∧
      translate_text (fun t _ => Except.ok t) "hello" "en" = Except.ok "hello" ∧
      translate_text (fun t _ => Except.ok t) "hello" ""
        = (fun t _ => (Except.ok t : Except String String)) "hello" "") :=
  ⟨by decide, translate_text_matches_spec_off_empty "hello" "cs" _ (by decide)⟩

/-- C8 counterexample: when the translation collaborator fails (raises), the
source propagates the failure unchanged instead of returning a fallback string:
for the target language cs and a collaborator that raises boom, the result is
that very error and in particular not a successful value. -/
theorem translate_text_propagates_failure :
    translate_text (fun _ _ => Except.error "boom") "hi" "cs" = Except.error "boom" ∧
    (translate_text (fun _ _ => Except.error "boom") "hi" "cs").toBool = false :=
  ⟨rfl, rfl⟩

/-- C8 (amended): translate_text has no exception handling of its own: for every
languageCode that does not lower-case-start with en it returns exactly the
collaborator outcome, so a collaborator failure is propagated to the caller
rather than converted into a fallback string. -/
theorem translate_text_delegates_on_non_en (text lang : String)
    (collab : String → String → Except String String)
    (h : pyStartswith (pyLower lang) "en" = false) :
    translate_text collab text lang = collab text lang := by
  simp [translate_text, h]

/-- Witness for C8 (amended) with a failing collaborator and languageCode cs. -/
theorem translate_text_delegates_on_non_en_witness :
    pyStartswith (pyLower "cs") "en" = false ∧
    translate_text (fun _ _ => Except.error "x") "hello" "cs"
      = (fun _ _ => (Except.error "x" : Except String String)) "hello" "cs" :=
  ⟨by decide, translate_text_delegates_on_non_en "hello" "cs" _ (by decide)⟩

/-! ## upload_csv insertion loop (upload.py lines 37-46) -/

/-- Insertion loop of upload_csv, upload.py lines 37-46: given the (already
normalized) header list and the remaining CSV data rows, execute one INSERT per
row whose field count equals the header count, skipping all other rows, while
counting the inserts.  Returns the list of inserted rows in order together with
the final inserted counter.  The surrounding I/O (multipart read, utf-8 decode,
CSV parsing, CREATE TABLE and the SQL engine) is outside this pure model. -/
def upload_csv (headers : List String) (rows : List (List String)) :
    List (List String) × Nat :=
  rows.foldl
    (fun acc row =>
      if row.length = headers.length then (acc.1 ++ [row], acc.2 + 1) else acc)
    ([], 0)

theorem upload_csv_foldl (headers : List String) :
    ∀ (rows : List (List String)) (acc : List (List String)) (n : Nat),
      rows.foldl
        (fun acc row =>
          if row.length = headers.length then (acc.1 ++ [row], acc.2 + 1) else acc)
        (acc, n)
      = (acc ++ rows.filter (fun row => row.length == headers.length),
         n + (rows.filter (fun row => row.length == headers.length)).length)
  | [], acc, n => by simp
  | r :: rs, acc, n => by
    by_cases hr : r.length = headers.length
    · simp only [List.foldl_cons, if_pos hr, upload_csv_foldl headers rs]
      simp [List.filter_cons, hr]
      omega
    · simp only [List.foldl_cons, if_neg hr, upload_csv_foldl headers rs]
      simp [List.filter_cons, hr]

/-- C10: the upload loop inserts exactly the data rows whose field count equals
the header count, in their original order, silently skipping all rows of any
other length, and the returned inserted counter equals the number of rows
actually inserted. -/
theorem upload_csv_inserts_matching_rows (headers : List String)
    (rows : List (List String)) :
    (upload_csv headers rows).1
        = rows.filter (fun row => row.length == headers.length) ∧
    (upload_csv headers rows).2
        = (rows.filter (fun row => row.length == headers.length)).length ∧
    (upload_csv headers rows).2 = (upload_csv headers rows).1.length := by
  unfold upload_csv
  rw [upload_csv_foldl]
  simp

/-! ## ConversationRouter: handle_location (main.py lines 397-582) and the
waste-handling helpers (main.py lines 283-392) -/

/-- The three Golemio geospatial endpoints the bot can query. -/
inductive ProviderId where
  | sortedWaste
  | bulkyWaste
  | wasteYards
deriving DecidableEq

/-- One outbound provider request: the endpoint plus the request params dict
(latlng, range, onlyMonitored, limit).  onlyMonitored is none when the params
dict carries no such key (the bulky-waste and collection-yard requests).  The
range field holds the raw number passed to the backend (the bulky-waste
endpoint interprets it in kilometers, the other two in meters). -/
structure Query where
  provider : ProviderId
  lat : ℝ
  lon : ℝ
  range : ℕ
  onlyMonitored : Option Bool
  limit : ℕ

/-- Modelled from the spec: the backend radius unit differs between providers
(meters for the sortedwastestations and wastecollectionyards endpoints,
kilometers for bulky-waste); this external-API fact is stated in the spec and
not decidable from the repository source alone.  Converts a query's raw range
to its effective radius in meters. -/
def effectiveRadiusMeters (q : Query) : ℕ :=
  match q.provider with
  | ProviderId.bulkyWaste => q.range * 1000
  | _ => q.range

/-- One GeoJSON feature of a provider response, reduced to the fields the
router computes with: geometry.coordinates[0] (longitude),
geometry.coordinates[1] (latitude) and a name standing for the display-only
properties dict. -/
structure Feature where
  lon : ℝ
  lat : ℝ
  name : String

/-- Result of one provider request: a parsed feature list, or err for a
requests.RequestException (network failure or raise_for_status), the
ProviderUnavailable case of the spec taxonomy. -/
inductive NetResult where
  | ok (features : List Feature)
  | err

/-- The conversation-relevant keys of context.user_data: last_item set by the
photo handler to the classified (item, bin_color) pair, mode set by the
/findtrash button handler to one of the callback strings. -/
structure UserData where
  last_item : Option (String × String)
  mode : Option String

/-- Outbound messages of handle_location and its helpers; each constructor
stands for one literal message string of the source (keyboard markup and
Markdown flags are display-only and not modelled). -/
inductive Reply where
  | searching
  | unknownRequestType
  | serviceUnavailable
  | errorFindingBin
  | notFoundBins (bin_color item : String)
  | nearestBin (bin_color item : String) (f : Feature) (dist : ℝ)
  | noSmartContainers
  | smartTrashList (fs : List Feature)
  | noBulkyPoints
  | bulkyList (fs : List Feature)
  | noYards
  | yardsList (fs : List Feature)
  | noMonitored
  | closestContainer (f : Feature) (dist : ℝ)
  | golemioError

/-- What one handle_location invocation does: the messages sent in order, the
resulting per-user state, and the provider requests issued in order. -/
structure Outcome where
  replies : List Reply
  state : UserData
  calls : List Query

/-- Python min(iterable, key=...) over a nonempty list, written with the first
element split off: keep the current best and replace it only when a later
element has a strictly smaller key, so the first element attaining the minimal
key wins. -/
def pyMinKey {α β : Type} [LinearOrder β] (key : α → β) : α → List α → α
  | best, [] => best
  | best, x :: xs => if key x < key best then pyMinKey key x xs else pyMinKey key best xs

/-- The element g is the first minimum of l under key: l splits as
l₁ ++ g :: l₂ where g has a minimal key over all of l and a strictly smaller
key than every element before it. -/
def IsFirstMin {α β : Type} [LinearOrder β] (key : α → β) (l : List α) (g : α) : Prop :=
  ∃ l₁ l₂, l = l₁ ++ g :: l₂ ∧ (∀ y ∈ l, key g ≤ key y) ∧ (∀ y ∈ l₁, key g < key y)

theorem pyMinKey_isFirstMin {α β : Type} [LinearOrder β] (key : α → β) :
    ∀ (l : List α) (b : α), IsFirstMin key (b :: l) (pyMinKey key b l) := by
  intro l
  induction l with
  | nil =>
    intro b
    refine ⟨[], [], rfl, ?_, ?_⟩
    · intro y hy
      rw [List.mem_singleton.mp hy]
      exact le_refl _
    · intro y hy
      exact absurd hy (List.not_mem_nil y)
  | cons x xs ih =>
    intro b
    by_cases h : key x < key b
    · have hstep : pyMinKey key b (x :: xs) = pyMinKey key x xs := by
        simp [pyMinKey, h]
      rw [hstep]
      obtain ⟨l₁, l₂, heq, hmin, hpre⟩ := ih x
      have hrx : key (pyMinKey key x xs) ≤ key x := hmin x (by simp)
      refine ⟨b :: l₁, l₂, ?_, ?_, ?_⟩
      · rw [List.cons_append, ← heq]
      · intro y hy
        rcases List.mem_cons.mp hy with hyb | hymem
        · rw [hyb]
          exact le_of_lt (lt_of_le_of_lt hrx h)
        · exact hmin y hymem
      · intro y hy
        rcases List.mem_cons.mp hy with hyb | hymem
        · rw [hyb]
          exact lt_of_le_of_lt hrx h
        · exact hpre y hymem
    · have hstep : pyMinKey key b (x :: xs) = pyMinKey key b xs := by
        simp [pyMinKey, h]
      rw [hstep]
      have hbx : key b ≤ key x := le_of_not_lt h
      obtain ⟨l₁, l₂, heq, hmin, hpre⟩ := ih b
      have hrb : key (pyMinKey key b xs) ≤ key b := hmin b (by simp)
      cases l₁ with
      | nil =>
        simp only [List.nil_append] at heq
        injection heq with hb hl
        refine ⟨[], x :: l₂, ?_, ?_, ?_⟩
        · rw [List.nil_append, ← hb, hl]
        · intro y hy
          rcases List.mem_cons.mp hy with hyb | hymem
          · rw [hyb]
            exact hrb
          · rcases List.mem_cons.mp hymem with hyx | hyxs
            · rw [hyx]
              exact le_trans hrb hbx
            · exact hmin y (List.mem_cons_of_mem b hyxs)
        · intro y hy
          exact absurd hy (List.not_mem_nil y)
      | cons c t₁ =>
        rw [List.cons_append] at heq
        injection heq with hb hl
        have hrltb : key (pyMinKey key b xs) < key b := by
          have hc := hpre c (by simp)
          rw [← hb] at hc
          exact hc
        refine ⟨b :: x :: t₁, l₂, ?_, ?_, ?_⟩
        · rw [List.cons_append, List.cons_append, ← hl]
        · intro y hy
          rcases List.mem_cons.mp hy with hyb | hymem
          · rw [hyb]
            exact le_of_lt hrltb
          · rcases List.mem_cons.mp hymem with hyx | hyxs
            · rw [hyx]
              exact le_trans (le_of_lt hrltb) hbx
            · exact hmin y (List.mem_cons_of_mem b hyxs)
        · intro y hy
          rcases List.mem_cons.mp hy with hyb | hymem
          · rw [hyb]
            exact hrltb
          · rcases List.mem_cons.mp hymem with hyx | hyt
            · rw [hyx]
              exact lt_of_lt_of_le hrltb hbx
            · exact hpre y (List.mem_cons_of_mem c hyt)

/-- The params dict built at the top of handle_location (main.py lines
411-416): sortedwastestations with range 500, onlyMonitored true, limit 5. -/
def locParams (lat lon : ℝ) : Query :=
  { provider := ProviderId.sortedWaste, lat := lat, lon := lon,
    range := 500, onlyMonitored := some true, limit := 5 }

/-- Request issued by handle_smart_trash (main.py lines 288-295). -/
def smartTrashQuery (lat lon : ℝ) : Query :=
  { provider := ProviderId.sortedWaste, lat := lat, lon := lon,
    range := 1000, onlyMonitored := some true, limit := 1 }

/-- Request issued by handle_bulky_waste (main.py lines 332-338); note the raw
range value 2, which the bulky-waste backend reads as kilometers. -/
def bulkyWasteQuery (lat lon : ℝ) : Query :=
  { provider := ProviderId.bulkyWaste, lat := lat, lon := lon,
    range := 2, onlyMonitored := none, limit := 1 }

/-- Request issued by handle_waste_yards (main.py lines 366-372). -/
def wasteYardsQuery (lat lon : ℝ) : Query :=
  { provider := ProviderId.wasteYards, lat := lat, lon := lon,
    range := 5000, onlyMonitored := none, limit := 2 }

/-- handle_smart_trash (main.py lines 283-325): one sortedwastestations request;
empty feature list gives the no-containers message, otherwise the formatted
list of the returned features in backend order.  A none reply means the call
raised (raise_for_status / network), propagating to the caller. -/
def handle_smart_trash (lat lon : ℝ) (net : Query → NetResult) :
    Query × Option Reply :=
  (smartTrashQuery lat lon,
   match net (smartTrashQuery lat lon) with
   | NetResult.err => none
   | NetResult.ok [] => some Reply.noSmartContainers
   | NetResult.ok (f :: fs) => some (Reply.smartTrashList (f :: fs)))

/-- handle_bulky_waste (main.py lines 328-359), same shape as
handle_smart_trash over the bulky-waste endpoint. -/
def handle_bulky_waste (lat lon : ℝ) (net : Query → NetResult) :
    Query × Option Reply :=
  (bulkyWasteQuery lat lon,
   match net (bulkyWasteQuery lat lon) with
   | NetResult.err => none
   | NetResult.ok [] => some Reply.noBulkyPoints
   | NetResult.ok (f :: fs) => some (Reply.bulkyList (f :: fs)))

/-- handle_waste_yards (main.py lines 362-392), same shape over the
wastecollectionyards endpoint. -/
def handle_waste_yards (lat lon : ℝ) (net : Query → NetResult) :
    Query × Option Reply :=
  (wasteYardsQuery lat lon,
   match net (wasteYardsQuery lat lon) with
   | NetResult.err => none
   | NetResult.ok [] => some Reply.noYards
   | NetResult.ok (f :: fs) => some (Reply.yardsList (f :: fs)))

/-- handle_location (main.py lines 397-582).  Branch order as in the source:
1. last_item present (a photo was just classified): delete last_item, query
   sortedwastestations with the 500 m / onlyMonitored / limit 5 params, and on
   success reply with the feature of minimal haversine distance (Python min
   with a calculate_distance key) or the not-found message on an empty list;
   a RequestException is caught and answered with the error message.
2. else, mode truthy (Python: None and the empty string are falsy): send the
   searching message, dispatch on the mode string to exactly one helper,
   reply with its text and pop mode; the except RequestException arm replies
   service-unavailable and does NOT pop mode; an unknown mode string calls no
   provider, replies unknown-request-type and pops mode.
3. else, the default lookup: the same 500 m sortedwastestations query, closest
   feature by the same min, nothing consumed or cleared.
The surrounding try/except Exception of the source converts any remaining
exception into a reply, so the handler never raises to the Telegram layer;
correspondingly this model is a total function. -/
noncomputable def handle_location (ud : UserData) (lat lon : ℝ)
    (net : Query → NetResult) : Outcome :=
  let params := locParams lat lon
  match ud.last_item with
  | some (item, bin_color) =>
    let ud2 : UserData := { ud with last_item := none }
    (match net params with
     | NetResult.err =>
       { replies := [Reply.errorFindingBin], state := ud2, calls := [params] }
     | NetResult.ok [] =>
       { replies := [Reply.notFoundBins bin_color item], state := ud2, calls := [params] }
     | NetResult.ok (f :: fs) =>
       let closest := pyMinKey (fun g => calculate_distance lat lon g.lat g.lon) f fs
       { replies := [Reply.nearestBin bin_color item closest
           (calculate_distance lat lon closest.lat closest.lon)],
         state := ud2, calls := [params] })
  | none =>
    let defaultOutcome : Outcome :=
      match net params with
      | NetResult.err =>
        { replies := [Reply.golemioError], state := ud, calls := [params] }
      | NetResult.ok [] =>
        { replies := [Reply.noMonitored], state := ud, calls := [params] }
      | NetResult.ok (f :: fs) =>
        let closest := pyMinKey (fun g => calculate_distance lat lon g.lat g.lon) f fs
        { replies := [Reply.closestContainer closest
            (calculate_distance lat lon closest.lat closest.lon)],
          state := ud, calls := [params] }
    match ud.mode with
    | none => defaultOutcome
    | some m =>
      if m = "" then defaultOutcome
      else
        let helperRes : Option (Query × Option Reply) :=
          if m = "smarttrash" then some (handle_smart_trash lat lon net)
          else if m = "bulkytrash" then some (handle_bulky_waste lat lon net)
          else if m = "wasteyard" then some (handle_waste_yards lat lon net)
          else none
        match helperRes with
        | none =>
          { replies := [Reply.searching, Reply.unknownRequestType],
            state := { ud with mode := none }, calls := [] }
        | some (q, none) =>
          { replies := [Reply.searching, Reply.serviceUnavailable],
            state := ud, calls := [q] }
        | some (q, some r) =>
          { replies := [Reply.searching, r],
            state := { ud with mode := none }, calls := [q] }

/-- C1: while a pending classification (item, bin_color) is set, a location
event issues exactly one provider request, the sortedwastestations query with
onlyMonitored true, range 500 m and limit 5 (at least 5), clears the pending
classification (the mode field is carried through unchanged, so the state is
Idle whenever no mode was set); on a nonempty feature list the reply names the
first feature of minimal haversine distance to the user coordinate (ties
resolved to the earliest provider-order element) together with that distance,
and on an empty list the reply is the not-found message while the pending
classification is still cleared. -/
theorem handle_location_classification (item color : String) (m : Option String)
    (lat lon : ℝ) (net : Query → NetResult) (fs : List Feature)
    (h : net (locParams lat lon) = NetResult.ok fs) :
    (handle_location ⟨some (item, color), m⟩ lat lon net).calls = [locParams lat lon] ∧
    (locParams lat lon).provider = ProviderId.sortedWaste ∧
    (locParams lat lon).range = 500 ∧
    (locParams lat lon).onlyMonitored = some true ∧
    5 ≤ (locParams lat lon).limit ∧
    (handle_location ⟨some (item, color), m⟩ lat lon net).state = ⟨none, m⟩ ∧
    (match fs with
     | [] =>
       (handle_location ⟨some (item, color), m⟩ lat lon net).replies
         = [Reply.notFoundBins color item]
     | f :: rest =>
       ∃ g : Feature,
         (handle_location ⟨some (item, color), m⟩ lat lon net).replies
           = [Reply.nearestBin color item g (calculate_distance lat lon g.lat g.lon)] ∧
         IsFirstMin (fun p => calculate_distance lat lon p.lat p.lon) (f :: rest) g) := by
  cases fs with
  | nil =>
    refine ⟨?_, rfl, rfl, rfl, by simp [locParams], ?_, ?_⟩
    · simp [handle_location, h]
    · simp [handle_location, h]
    · simp [handle_location, h]
  | cons f rest =>
    refine ⟨?_, rfl, rfl, rfl, by simp [locParams], ?_, ?_⟩
    · simp [handle_location, h]
    · simp [handle_location, h]
    · refine ⟨pyMinKey (fun p => calculate_distance lat lon p.lat p.lon) f rest, ?_, ?_⟩
      · simp [handle_location, h]
      · exact pyMinKey_isFirstMin _ rest f

/-- Witness for C1 at a concrete state and an empty provider response. -/
theorem handle_location_classification_witness :
    (fun _ : Query => NetResult.ok ([] : List Feature)) (locParams 50 14)
      = NetResult.ok ([] : List Feature) ∧
    ((handle_location ⟨some ("plastic bottle", "yellow"), none⟩ 50 14
        (fun _ => NetResult.ok [])).calls = [locParams 50 14] ∧
      (locParams 50 14).provider = ProviderId.sortedWaste ∧
      (locParams 50 14).range = 500 ∧
      (locParams 50 14).onlyMonitored = some true ∧
      5 ≤ (locParams 50 14).limit ∧
      (handle_location ⟨some ("plastic bottle", "yellow"), none⟩ 50 14
        (fun _ => NetResult.ok [])).state = ⟨none, none⟩ ∧
      (handle_location ⟨some ("plastic bottle", "yellow"), none⟩ 50 14
        (fun _ => NetResult.ok [])).replies
        = [Reply.notFoundBins "yellow" "plastic bottle"]) :=
  ⟨rfl, handle_location_classification "plastic bottle" "yellow" none 50 14
    (fun _ => NetResult.ok []) [] rfl⟩

/-- C5: when both a pending classification and a mode are set, a location event
runs the classification flow only: the messages sent and the provider requests
issued are identical to those of the same state without any mode (the mode
field is never consulted), the mode is left untouched in the resulting state so
it still applies to the next location event, and the pending classification is
consumed. -/
theorem handle_location_pending_ignores_mode (item color md : String)
    (lat lon : ℝ) (net : Query → NetResult) :
    (handle_location ⟨some (item, color), some md⟩ lat lon net).replies
      = (handle_location ⟨some (item, color), none⟩ lat lon net).replies ∧
    (handle_location ⟨some (item, color), some md⟩ lat lon net).calls
      = (handle_location ⟨some (item, color), none⟩ lat lon net).calls ∧
    (handle_location ⟨some (item, color), some md⟩ lat lon net).state.mode = some md ∧
    (handle_location ⟨some (item, color), some md⟩ lat lon net).state.last_item = none := by
  cases hnet : net (locParams lat lon) with
  | err =>
    refine ⟨?_, ?_, ?_, ?_⟩ <;> simp [handle_location, hnet]
  | ok fs =>
    cases fs with
    | nil =>
      refine ⟨?_, ?_, ?_, ?_⟩ <;> simp [handle_location, hnet]
    | cons f rest =>
      refine ⟨?_, ?_, ?_, ?_⟩ <;> simp [handle_location, hnet]

/-- C2 counterexample: with mode smarttrash set and the provider failing, the
handler replies searching then service-unavailable but does NOT clear the mode
(context.user_data.pop("mode") is only reached on the success path), so the
state machine is not left Idle, contrary to the claim that any in-flight
conversation state is cleared on a provider error. -/
theorem handle_location_error_keeps_mode :
    (handle_location ⟨none, some "smarttrash"⟩ 50 14 (fun _ => NetResult.err)).replies
      = [Reply.searching, Reply.serviceUnavailable] ∧
    (handle_location ⟨none, some "smarttrash"⟩ 50 14 (fun _ => NetResult.err)).state.mode
      = some "smarttrash" ∧
    (handle_location ⟨none, some "smarttrash"⟩ 50 14 (fun _ => NetResult.err)).state.mode
      ≠ none := by
  refine ⟨rfl, rfl, ?_⟩
  intro hcon
  rw [show (handle_location ⟨none, some "smarttrash"⟩ 50 14
      fun _ => NetResult.err).state.mode = some "smarttrash" from rfl] at hcon
  exact Option.noConfusion hcon

/-- C2 (amended): a provider error (requests.RequestException) is always caught
and converted into an error reply, never raised to the messaging layer (the
model is a total function); in the classification branch the pending
classification is cleared, having been deleted before the request, while the
mode field is carried through untouched; in the mode branch the
service-unavailable reply is sent but the mode is NOT cleared on error, the pop
being reached only on success. -/
theorem handle_location_provider_error (item color md : String) (m : Option String)
    (lat lon : ℝ) (net : Query → NetResult)
    (h : ∀ q, net q = NetResult.err)
    (hmd : md = "smarttrash" ∨ md = "bulkytrash" ∨ md = "wasteyard") :
    (handle_location ⟨some (item, color), m⟩ lat lon net).replies
      = [Reply.errorFindingBin] ∧
    (handle_location ⟨some (item, color), m⟩ lat lon net).state = ⟨none, m⟩ ∧
    (handle_location ⟨none, some md⟩ lat lon net).replies
      = [Reply.searching, Reply.serviceUnavailable] ∧
    (handle_location ⟨none, some md⟩ lat lon net).state = ⟨none, some md⟩ := by
  refine ⟨?_, ?_, ?_, ?_⟩
  · simp [handle_location, h]
  · simp [handle_location, h]
  · rcases hmd with h1 | h1 | h1 <;> subst h1 <;>
      simp [handle_location, handle_smart_trash, handle_bulky_waste,
        handle_waste_yards, h]
  · rcases hmd with h1 | h1 | h1 <;> subst h1 <;>
      simp [handle_location, handle_smart_trash, handle_bulky_waste,
        handle_waste_yards, h]

/-- Witness for C2 (amended) at a concrete state, mode smarttrash and an
always-failing provider. -/
theorem handle_location_provider_error_witness :
    (∀ q : Query, (fun _ : Query => NetResult.err) q = NetResult.err) ∧
    (("smarttrash" : String) = "smarttrash" ∨ ("smarttrash" : String) = "bulkytrash" ∨
      ("smarttrash" : String) = "wasteyard") ∧
    ((handle_location ⟨some ("x", "yellow"), none⟩ 50 14 (fun _ => NetResult.err)).replies
        = [Reply.errorFindingBin] ∧
      (handle_location ⟨some ("x", "yellow"), none⟩ 50 14 (fun _ => NetResult.err)).state
        = ⟨none, none⟩ ∧
      (handle_location ⟨none, some "smarttrash"⟩ 50 14 (fun _ => NetResult.err)).replies
        = [Reply.searching, Reply.serviceUnavailable] ∧
      (handle_location ⟨none, some "smarttrash"⟩ 50 14 (fun _ => NetResult.err)).state
        = ⟨none, some "smarttrash"⟩) :=
  ⟨fun _ => rfl, Or.inl rfl,
    handle_location_provider_error "x" "yellow" "smarttrash" none 50 14
      (fun _ => NetResult.err) (fun _ => rfl) (Or.inl rfl)⟩

/-- C4: with a mode set and no pending classification, a location event
dispatches to exactly the one provider matching the mode and to no other:
smarttrash issues only the sortedwastestations query with range 1000 m and
onlyMonitored true, bulkytrash only the bulky-waste query with raw range 2
(an effective radius of 2000 m, the backend unit being kilometers), wasteyard
only the wastecollectionyards query with range 5000 m; on success the reply
carries the backend result list (or the per-provider not-found message) and the
mode is cleared afterwards. -/
theorem handle_location_mode_dispatch (lat lon : ℝ) (net : Query → NetResult)
    (fs : List Feature) (h : ∀ q, net q = NetResult.ok fs) :
    ((handle_location ⟨none, some "smarttrash"⟩ lat lon net).calls
        = [smartTrashQuery lat lon] ∧
      (handle_location ⟨none, some "smarttrash"⟩ lat lon net).state = ⟨none, none⟩ ∧
      (handle_location ⟨none, some "smarttrash"⟩ lat lon net).replies
        = [Reply.searching,
           match fs with
           | [] => Reply.noSmartContainers
           | f :: rest => Reply.smartTrashList (f :: rest)]) ∧
    ((handle_location ⟨none, some "bulkytrash"⟩ lat lon net).calls
        = [bulkyWasteQuery lat lon] ∧
      (handle_location ⟨none, some "bulkytrash"⟩ lat lon net).state = ⟨none, none⟩ ∧
      (handle_location ⟨none, some "bulkytrash"⟩ lat lon net).replies
        = [Reply.searching,
           match fs with
           | [] => Reply.noBulkyPoints
           | f :: rest => Reply.bulkyList (f :: rest)]) ∧
    ((handle_location ⟨none, some "wasteyard"⟩ lat lon net).calls
        = [wasteYardsQuery lat lon] ∧
      (handle_location ⟨none, some "wasteyard"⟩ lat lon net).state = ⟨none, none⟩ ∧
      (handle_location ⟨none, some "wasteyard"⟩ lat lon net).replies
        = [Reply.searching,
           match fs with
           | [] => Reply.noYards
           | f :: rest => Reply.yardsList (f :: rest)]) ∧
    (smartTrashQuery lat lon).provider = ProviderId.sortedWaste ∧
    (smartTrashQuery lat lon).range = 1000 ∧
    (smartTrashQuery lat lon).onlyMonitored = some true ∧
    effectiveRadiusMeters (smartTrashQuery lat lon) = 1000 ∧
    (bulkyWasteQuery lat lon).provider = ProviderId.bulkyWaste ∧
    (bulkyWasteQuery lat lon).range = 2 ∧
    effectiveRadiusMeters (bulkyWasteQuery lat lon) = 2000 ∧
    (wasteYardsQuery lat lon).provider = ProviderId.wasteYards ∧
    (wasteYardsQuery lat lon).range = 5000 ∧
    effectiveRadiusMeters (wasteYardsQuery lat lon) = 5000 := by
  cases fs with
  | nil =>
    refine ⟨⟨?_, ?_, ?_⟩, ⟨?_, ?_, ?_⟩, ⟨?_, ?_, ?_⟩,
      ?_, ?_, ?_, ?_, ?_, ?_, ?_, ?_, ?_, ?_⟩ <;>
      simp [handle_location, handle_smart_trash, handle_bulky_waste,
        handle_waste_yards, smartTrashQuery, bulkyWasteQuery, wasteYardsQuery,
        effectiveRadiusMeters, h]
  | cons f rest =>
    refine ⟨⟨?_, ?_, ?_⟩, ⟨?_, ?_, ?_⟩, ⟨?_, ?_, ?_⟩,
      ?_, ?_, ?_, ?_, ?_, ?_, ?_, ?_, ?_, ?_⟩ <;>
      simp [handle_location, handle_smart_trash, handle_bulky_waste,
        handle_waste_yards, smartTrashQuery, bulkyWasteQuery, wasteYardsQuery,
        effectiveRadiusMeters, h]

/-- Witness for C4 at concrete coordinates and an empty provider response. -/
theorem handle_location_mode_dispatch_witness :
    (∀ q : Query, (fun _ : Query => NetResult.ok ([] : List Feature)) q
      = NetResult.ok ([] : List Feature)) ∧
    (((handle_location ⟨none, some "smarttrash"⟩ 50 14
          (fun _ => NetResult.ok [])).calls = [smartTrashQuery 50 14] ∧
      (handle_location ⟨none, some "smarttrash"⟩ 50 14
          (fun _ => NetResult.ok [])).state = ⟨none, none⟩ ∧
      (handle_location ⟨none, some "smarttrash"⟩ 50 14
          (fun _ => NetResult.ok [])).replies
        = [Reply.searching, Reply.noSmartContainers]) ∧
    ((handle_location ⟨none, some "bulkytrash"⟩ 50 14
          (fun _ => NetResult.ok [])).calls = [bulkyWasteQuery 50 14] ∧
      (handle_location ⟨none, some "bulkytrash"⟩ 50 14
          (fun _ => NetResult.ok [])).state = ⟨none, none⟩ ∧
      (handle_location ⟨none, some "bulkytrash"⟩ 50 14
          (fun _ => NetResult.ok [])).replies
        = [Reply.searching, Reply.noBulkyPoints]) ∧
    ((handle_location ⟨none, some "wasteyard"⟩ 50 14
          (fun _ => NetResult.ok [])).calls = [wasteYardsQuery 50 14] ∧
      (handle_location ⟨none, some "wasteyard"⟩ 50 14
          (fun _ => NetResult.ok [])).state = ⟨none, none⟩ ∧
      (handle_location ⟨none, some "wasteyard"⟩ 50 14
          (fun _ => NetResult.ok [])).replies
        = [Reply.searching, Reply.noYards]) ∧
    (smartTrashQuery 50 14).provider = ProviderId.sortedWaste ∧
    (smartTrashQuery 50 14).range = 1000 ∧
    (smartTrashQuery 50 14).onlyMonitored = some true ∧
    effectiveRadiusMeters (smartTrashQuery 50 14) = 1000 ∧
    (bulkyWasteQuery 50 14).provider = ProviderId.bulkyWaste ∧
    (bulkyWasteQuery 50 14).range = 2 ∧
    effectiveRadiusMeters (bulkyWasteQuery 50 14) = 2000 ∧
    (wasteYardsQuery 50 14).provider = ProviderId.wasteYards ∧
    (wasteYardsQuery 50 14).range = 5000 ∧
    effectiveRadiusMeters (wasteYardsQuery 50 14) = 5000) :=
  ⟨fun _ => rfl,
    handle_location_mode_dispatch 50 14 (fun _ => NetResult.ok []) [] (fun _ => rfl)⟩
